import Mathlib

/-!
# Verification of the ms-pedidos order-lifecycle orchestrator

Shallow embedding of the order-management service (`src/services/pedido.py`,
`src/routes/pedido.py`, `src/routes/pubsub.py`, `src/domain/enums.py`,
`src/domain/models.py`, `src/config.py`).

Conventions of the embedding:
* Python `Decimal` values are embedded as `ℚ` (exact decimal arithmetic,
  no binary floating point; every `Decimal` literal in the source is a
  rational number).
* UUIDs are embedded as `String`s; `date`s as integer day numbers
  (`date.today()` becomes an explicit `today : Int` parameter, and
  `d + timedelta(days = n)` becomes `d + n`).
* Fallible Python code is embedded as `Except PyError _`; `ValueError`
  and `AttributeError` are the two exception kinds the claims mention.
* Outbound HTTP calls made through `MsClient` (whose implementation,
  `src/infrastructure/http.py`, is a collaborator of the orchestrator)
  are recorded as a list of `GwCall` values in program order; the
  responses of the sibling services are an oracle (`Gateway`), a record
  of response functions, per the gateway contract: a 2xx response is the
  decoded body, of which the service only reads the fields modelled here.
* Python truthiness tests on optional strings (`if x_country:`,
  `... or "OK"`) are embedded via `truthyStr`, which maps both `None`
  and the empty string to `none`.
-/

namespace MsPedidos

/-- Python exceptions that the orchestrator can raise: `ValueError msg`
for business-validation failures, and `AttributeError name` for an
attribute lookup on an object that does not define `name`. -/
inductive PyError where
  | valueError (msg : String)
  | attributeError (name : String)
  deriving Repr, DecidableEq

/-- Python truthiness for an optional string: `None` and `""` are falsy. -/
def truthyStr (o : Option String) : Option String :=
  match o with
  | none => none
  | some s => if s = "" then none else some s

/-- Embeds `src/config.py` `Settings`: only the attributes the embedded code reads
are kept.  The service additionally reads `settings.DEFAULT_COMPRA_LEAD_DAYS`
and `settings.DEFAULT_VENTA_LEAD_DAYS` (`services/pedido.py` lines 75 and 95),
but the `Settings` class defines no such attributes; the two lookups are
modelled as `Option Int` fields whose value in the real configuration object
is `none`, and reading a `none` field raises `AttributeError`. -/
structure Settings where
  DEFAULT_SCHEMA : String
  COUNTRY_HEADER : String
  DEFAULT_COMPRA_LEAD_DAYS : Option Int
  DEFAULT_VENTA_LEAD_DAYS : Option Int
  deriving Repr, DecidableEq

/-- The configuration singleton built by `src/config.py`: `DEFAULT_SCHEMA`
defaults to `"co"`, `COUNTRY_HEADER` to `"X-Country"`, and the two lead-day
attributes read by the service are absent from the class. -/
def settings : Settings :=
  { DEFAULT_SCHEMA := "co"
    COUNTRY_HEADER := "X-Country"
    DEFAULT_COMPRA_LEAD_DAYS := none
    DEFAULT_VENTA_LEAD_DAYS := none }

/-- Embeds `src/domain/enums.py` `PedidoTipo`. -/
inductive PedidoTipo where
  | COMPRA
  | VENTA
  deriving Repr, DecidableEq

/-- Embeds `src/domain/enums.py` `PedidoEstado`. -/
inductive PedidoEstado where
  | BORRADOR
  | PENDIENTE_APROBACION
  | APROBADO
  | EN_TRANSITO
  | RECIBIDO
  | DESPACHADO
  | CANCELADO
  deriving Repr, DecidableEq

/-- Embeds `src/domain/models.py` `PedidoItem`.  The ORM model declares no
`ubicacion_id` column; `marcar_recibido` nevertheless reads it through
`getattr(it, "ubicacion_id", None)`, so it is kept here as an `Option`
field which every item built by this component leaves at `none`. -/
structure PedidoItem where
  producto_id : String
  cantidad : Int
  precio_unitario : Option ℚ
  impuesto_pct : Option ℚ
  descuento_pct : Option ℚ
  sku : Option String
  ubicacion_id : Option String
  deriving Repr, DecidableEq

/-- Embeds `src/domain/models.py` `Pedido` (the fields the orchestrator reads or
writes).  `fecha_compromiso` is a day number; monetary aggregates are `ℚ`. -/
structure Pedido where
  id : String
  codigo : String
  tipo : PedidoTipo
  estado : PedidoEstado
  observaciones : Option String
  fecha_compromiso : Int
  proveedor_id : Option String
  oc_id : Option String
  cliente_id : Option Int
  vendedor_id : Option Int
  bodega_origen_id : Option String
  bodega_destino_id : Option String
  reserva_token : Option String
  subtotal : ℚ
  impuesto_total : ℚ
  total : ℚ
  items : List PedidoItem
  deriving Repr, DecidableEq

/-- Embeds `src/domain/models.py` `PedidoEvento`, reduced to the fields the claims
observe: the event name passed to `PedidosService._log` (`evento`), the
resulting state, and the prior state (`de`).  The serialized detail payload
is observability-only and not modelled. -/
structure PedidoEvento where
  evento : String
  estado : PedidoEstado
  de : Option PedidoEstado
  deriving Repr, DecidableEq

/-- Embeds `services/pedido.py` `_dec`: `Decimal(str(v if v is not None else d))`
with the default `d = "0"` — a missing value is treated as zero. -/
def _dec (v : Option ℚ) : ℚ := v.getD 0

/-- The loop body of `calcular_totales` (`services/pedido.py` lines 33-38):
folds `(sub, imp)` over the items in order, accumulating net line amounts
and tax amounts. -/
def totalesAux : List PedidoItem → ℚ × ℚ → ℚ × ℚ
  | [], acc => acc
  | it :: rest, (sub, imp) =>
      let li := _dec it.precio_unitario * (it.cantidad : ℚ)
      let dsc := li * _dec it.descuento_pct / 100
      let neto := li - dsc
      totalesAux rest (sub + neto, imp + neto * _dec it.impuesto_pct / 100)

/-- Embeds `services/pedido.py` `calcular_totales`: mutates
`subtotal`, `impuesto_total` and `total` on the order from the fold over its
items (`sub` starts at `Decimal("0")`, `imp` at `Decimal("0")`,
`total = sub + imp`). -/
def calcular_totales (p : Pedido) : Pedido :=
  let si := totalesAux p.items (0, 0)
  { p with subtotal := si.1, impuesto_total := si.2, total := si.1 + si.2 }

/-- One item of the purchase-order payload posted to `/v1/ordenes-compra`
(`services/pedido.py` lines 147-156); `precio_unitario or 0` and friends
collapse a missing (or zero) value to `0`. -/
structure OcItem where
  producto_id : String
  cantidad : Int
  precio_unitario : ℚ
  impuesto_pct : ℚ
  descuento_pct : ℚ
  sku_proveedor : Option String
  deriving Repr, DecidableEq

/-- The purchase-order payload posted to `/v1/ordenes-compra`
(`services/pedido.py` lines 142-157). -/
structure OcBody where
  proveedor_id : String
  pedido_ref : String
  moneda : String
  notas : String
  items : List OcItem
  deriving Repr, DecidableEq

/-- One outbound call issued through `MsClient`, with the arguments the
service passes (`services/pedido.py`): the purchase-order create, the FEFO
issue (query params `producto_id`, `cantidad`), the lot create, the default
location create, the inbound receipt, and the supplier lead-time query. -/
inductive GwCall where
  | postOrdenesCompra (body : OcBody)
  | postSalidaFefo (producto_id : String) (cantidad : Int)
  | postLote (producto_id : String) (codigo : String)
  | postUbicacion (bodega_id : String)
  | postEntrada (lote_id : Option String) (ubicacion_id : Option String)
      (cantidad : Int) (estado : String)
  | getProveedores (producto_id : String)
  deriving Repr, DecidableEq

/-- The downstream path of each call, as written in the source. -/
def GwCall.path : GwCall → String
  | .postOrdenesCompra _ => "/v1/ordenes-compra"
  | .postSalidaFefo _ _ => "/v1/inventario/salida/fefo"
  | .postLote _ _ => "/v1/inventario/lote"
  | .postUbicacion _ => "/v1/inventario/ubicacion"
  | .postEntrada _ _ _ _ => "/v1/inventario/entrada"
  | .getProveedores p => "/v1/proveedores/" ++ p ++ "/proveedores"

/-- Response oracle for the sibling services reached through `MsClient`
(`src/infrastructure/http.py` is a collaborator outside the orchestrator;
per §4.3 of the spec a 2xx response is the decoded body).  Each field gives
the value the service reads out of the corresponding response body:
`oc.get("id")`, `resp.get("token")`, `lote.get("id")`, `ub.get("id")`. -/
structure Gateway where
  ocResp : OcBody → Option String
  fefoToken : String → Int → Option String
  loteId : String → String → Option String
  ubicacionId : String → Option String

/-- One supplier object of the `/v1/proveedores/{producto_id}/proveedores`
response: its `id` and `terminos.lead_time_dias` (absent nested keys give
`None`). -/
structure Prov where
  id : String
  lead_time_dias : Option Int
  deriving Repr, DecidableEq

/-- The `self.ms` collaborator `_lead_time_dias` tries to use: a supplier
query returning, per product, the supplier list (`none` models the HTTP
call raising). -/
structure MsIface where
  proveedores : String → Option (List Prov)

/-- Embeds `services/pedido.py` `PedidosService`: `__init__` stores only `self.db`;
no `ms` attribute is ever assigned, so `self.ms` (read by `_lead_time_dias`)
is modelled as an `Option MsIface` that `init` leaves at `none` — reading it
then raises `AttributeError`, which the method's `except Exception` catches. -/
structure PedidosService where
  ms : Option MsIface

/-- Embeds `PedidosService.__init__(db)`: sets `self.db` only. -/
def PedidosService.init : PedidosService := { ms := none }

/-- Embeds `services/pedido.py` `PedidosService._lead_time_dias`: inside
`try`, reads `self.ms` (raising `AttributeError` when absent — caught),
issues `GET /v1/proveedores/{producto_id}/proveedores` (any HTTP failure
caught), scans the suppliers for the first whose `id` matches
`proveedor_id`, and returns its `terminos.lead_time_dias` (possibly `None`).
Every exception path logs a warning and returns `None`. -/
def PedidosService.leadTimeDias (svc : PedidosService)
    (proveedor_id producto_id : String) : Option Int :=
  match svc.ms with
  | none => none
  | some ms =>
      match ms.proveedores producto_id with
      | none => none
      | some data =>
          match data.find? (fun prov => prov.id = proveedor_id) with
          | some prov => prov.lead_time_dias
          | none => none

/-- One input line of the creation payload (`schemas.ItemIn` after
`model_dump()`): `producto_id` and `cantidad` are required by the schema,
the rest optional. -/
structure ItemPayload where
  producto_id : String
  cantidad : Int
  precio_unitario : Option ℚ
  impuesto_pct : Option ℚ
  descuento_pct : Option ℚ
  sku : Option String
  deriving Repr, DecidableEq

/-- The creation payload handed to `PedidosService.crear` (the union of
`PedidoCompraCreate` and `PedidoVentaCreate` after `model_dump()`). -/
structure CrearPayload where
  tipo : PedidoTipo
  proveedor_id : Option String
  bodega_destino_id : Option String
  cliente_id : Option Int
  vendedor_id : Option Int
  bodega_origen_id : Option String
  observaciones : Option String
  fecha_recepcion : Option Int
  fecha_entrega : Option Int
  items : List ItemPayload
  deriving Repr, DecidableEq

/-- Embeds `services/pedido.py` `PedidosService._calcular_fecha_compromiso_compra`:
collects per-line lead times (skipping falsy `producto_id`, keeping only
non-`None`, non-negative results of `_lead_time_dias`), takes their maximum,
or — when none resolved — reads `settings.DEFAULT_COMPRA_LEAD_DAYS`, an
attribute `Settings` does not define, so that read raises `AttributeError`;
the commitment date is `today + dias`. -/
def PedidosService.calcularFechaCompromisoCompra (svc : PedidosService)
    (proveedor_id : String) (items : List ItemPayload) (today : Int) :
    Except PyError Int :=
  let lead_times := items.filterMap (fun it =>
    if it.producto_id = "" then none
    else
      match svc.leadTimeDias proveedor_id it.producto_id with
      | some lt => if 0 ≤ lt then some lt else none
      | none => none)
  match lead_times with
  | [] =>
      match settings.DEFAULT_COMPRA_LEAD_DAYS with
      | none => .error (.attributeError "DEFAULT_COMPRA_LEAD_DAYS")
      | some dias => .ok (today + dias)
  | l :: ls => .ok (today + ls.foldl max l)

/-- The commitment-date branch of `PedidosService.crear`
(`services/pedido.py` lines 83-95): for COMPRA, `proveedor_id` is
mandatory, an explicit `fecha_recepcion` wins, otherwise
`_calcular_fecha_compromiso_compra`; for VENTA, an explicit
`fecha_entrega` wins, otherwise `today + settings.DEFAULT_VENTA_LEAD_DAYS`
— another attribute `Settings` does not define, raising `AttributeError`. -/
def fechaCompromiso (svc : PedidosService) (payload : CrearPayload)
    (today : Int) : Except PyError Int :=
  match payload.tipo with
  | .COMPRA =>
      match payload.proveedor_id with
      | none => .error (.valueError "proveedor_id es obligatorio para pedidos de COMPRA")
      | some pv =>
          match payload.fecha_recepcion with
          | some f => .ok f
          | none => svc.calcularFechaCompromisoCompra pv payload.items today
  | .VENTA =>
      match payload.fecha_entrega with
      | some f => .ok f
      | none =>
          match settings.DEFAULT_VENTA_LEAD_DAYS with
          | none => .error (.attributeError "DEFAULT_VENTA_LEAD_DAYS")
          | some dias => .ok (today + dias)

/-- Ambient values `crear` draws from its environment: `date.today()`, the
generated `codigo` (`_gen_codigo` uses the clock and a random UUID) and the
database-generated order id. -/
structure Amb where
  today : Int
  codigo : String
  pedido_id : String
  deriving Repr, DecidableEq

/-- The `PedidoItem` row built for one payload line (`services/pedido.py`
lines 118-126); no `ubicacion_id` is ever set. -/
def itemOf (it : ItemPayload) : PedidoItem :=
  { producto_id := it.producto_id
    cantidad := it.cantidad
    precio_unitario := it.precio_unitario
    impuesto_pct := it.impuesto_pct
    descuento_pct := it.descuento_pct
    sku := it.sku
    ubicacion_id := none }

/-- Embeds `str(x)` on an optional id: Python renders `None` as `"None"`. -/
def strOfOpt (o : Option String) : String := o.getD "None"

/-- The item part of the `/v1/ordenes-compra` payload: `float(x or 0)`
collapses `None` (and `0`) to `0`. -/
def ocItemOf (it : PedidoItem) : OcItem :=
  { producto_id := it.producto_id
    cantidad := it.cantidad
    precio_unitario := (it.precio_unitario.getD 0)
    impuesto_pct := (it.impuesto_pct.getD 0)
    descuento_pct := (it.descuento_pct.getD 0)
    sku_proveedor := truthyStr it.sku }

/-- The `/v1/ordenes-compra` payload built by `crear` for a COMPRA order
(`services/pedido.py` lines 142-157). -/
def ocBodyOf (p : Pedido) : OcBody :=
  { proveedor_id := strOfOpt p.proveedor_id
    pedido_ref := p.id
    moneda := "COP"
    notas := p.observaciones.getD ""
    items := p.items.map ocItemOf }

/-- Embeds `(resp or {}).get("token") or "OK"`: a missing (or falsy) token is
replaced by `"OK"`. -/
def tokenOrOk (o : Option String) : String :=
  match truthyStr o with
  | some s => s
  | none => "OK"

/-- The result of one orchestrator operation: the persisted order, the
outbound gateway calls in program order, and the audit events appended by
`_log` in program order. -/
structure OpResult where
  pedido : Pedido
  calls : List GwCall
  eventos : List PedidoEvento
  deriving Repr, DecidableEq

/-- The part of `PedidosService.crear` after the commitment date is known
(`services/pedido.py` lines 97-184): build the DRAFT order, log the
commitment-date event, attach the items, compute totals, log creation,
auto-approve (logging the transition), then orchestrate — COMPRA: post the
purchase order and, when the response carries a truthy `id`, link it and
log `oc_creada`; VENTA: one FEFO issue per item, join the returned tokens
with `","` into `reserva_token`, log `salida_fefo`. -/
def crearCore (payload : CrearPayload) (amb : Amb) (gw : Gateway)
    (fc : Int) : OpResult :=
  let p0 : Pedido :=
    { id := amb.pedido_id
      codigo := amb.codigo
      tipo := payload.tipo
      estado := .BORRADOR
      observaciones := payload.observaciones
      fecha_compromiso := fc
      proveedor_id := payload.proveedor_id
      oc_id := none
      cliente_id := payload.cliente_id
      vendedor_id := payload.vendedor_id
      bodega_origen_id := payload.bodega_origen_id
      bodega_destino_id := payload.bodega_destino_id
      reserva_token := none
      subtotal := 0
      impuesto_total := 0
      total := 0
      items := [] }
  let ev1 : PedidoEvento := { evento := "pedido_creado", estado := p0.estado, de := none }
  let p1 := { p0 with items := payload.items.map itemOf }
  let p2 := calcular_totales p1
  let ev2 : PedidoEvento := { evento := "pedido_creado", estado := p2.estado, de := none }
  let p3 := { p2 with estado := PedidoEstado.APROBADO }
  let ev3 : PedidoEvento :=
    { evento := "pedido_aprobado", estado := .APROBADO, de := some .BORRADOR }
  match payload.tipo with
  | .COMPRA =>
      let body := ocBodyOf p3
      let call := GwCall.postOrdenesCompra body
      match truthyStr (gw.ocResp body) with
      | some ocId =>
          let p4 := { p3 with oc_id := some ocId }
          let ev4 : PedidoEvento :=
            { evento := "oc_creada", estado := .APROBADO, de := none }
          { pedido := p4, calls := [call], eventos := [ev1, ev2, ev3, ev4] }
      | none => { pedido := p3, calls := [call], eventos := [ev1, ev2, ev3] }
  | .VENTA =>
      let calls := p3.items.map
        (fun it => GwCall.postSalidaFefo it.producto_id it.cantidad)
      let tokens := p3.items.map
        (fun it => tokenOrOk (gw.fefoToken it.producto_id it.cantidad))
      let p4 := { p3 with reserva_token := some (String.intercalate "," tokens) }
      let ev4 : PedidoEvento :=
        { evento := "salida_fefo", estado := .APROBADO, de := none }
      { pedido := p4, calls := calls, eventos := [ev1, ev2, ev3, ev4] }

/-- Embeds `services/pedido.py` `PedidosService.crear`: compute the commitment
date (which can raise), then run the creation/orchestration pipeline. -/
def PedidosService.crear (svc : PedidosService) (payload : CrearPayload)
    (amb : Amb) (gw : Gateway) : Except PyError OpResult :=
  match fechaCompromiso svc payload amb.today with
  | .error e => .error e
  | .ok fc => .ok (crearCore payload amb gw fc)

/-- Embeds `f"{idx:02d}"`: decimal, left-padded with `0` to width 2. -/
def pad2 (n : Nat) : String :=
  if n < 10 then "0" ++ toString n else toString n

/-- The gateway calls `marcar_recibido` issues for the line at (1-based)
index `idx` (`services/pedido.py` lines 198-224): create the lot
`LOTE-{codigo}-{idx:02d}`, resolve a location (creating a default one in
the destination warehouse when the line has no truthy `ubicacion_id`), and
register the inbound receipt of the quantity as `DISPONIBLE`. -/
def recepcionLineCalls (p : Pedido) (gw : Gateway) (idx : Nat)
    (it : PedidoItem) : List GwCall :=
  let lote_code := "LOTE-" ++ p.codigo ++ "-" ++ pad2 idx
  let loteCall := GwCall.postLote it.producto_id lote_code
  let lote_id := gw.loteId it.producto_id lote_code
  match truthyStr it.ubicacion_id with
  | some u =>
      [loteCall, GwCall.postEntrada lote_id (some u) it.cantidad "DISPONIBLE"]
  | none =>
      let bodega := strOfOpt p.bodega_destino_id
      [loteCall, GwCall.postUbicacion bodega,
        GwCall.postEntrada lote_id (gw.ubicacionId bodega) it.cantidad "DISPONIBLE"]

/-- Embeds `services/pedido.py` `PedidosService.marcar_recibido`: `_ensure` the
order exists, require kind COMPRA, require state APROBADO or EN_TRANSITO;
only when a truthy `x_country` was supplied, build a client and issue the
per-line lot/location/receipt calls (`enumerate(p.items, start=1)`); then
set the state to RECIBIDO and log `pedido_recibido`. -/
def PedidosService.marcarRecibido (_svc : PedidosService)
    (dbp : Option Pedido) (x_country : Option String) (gw : Gateway) :
    Except PyError OpResult :=
  match dbp with
  | none => .error (.valueError "Pedido no encontrado")
  | some p =>
      if p.tipo ≠ PedidoTipo.COMPRA then
        .error (.valueError "Solo aplica para pedidos de COMPRA")
      else if p.estado ≠ PedidoEstado.APROBADO ∧ p.estado ≠ PedidoEstado.EN_TRANSITO then
        .error (.valueError "Transición no válida")
      else
        let calls :=
          match truthyStr x_country with
          | none => []
          | some _ =>
              (p.items.enumFrom 1).flatMap
                (fun pair => recepcionLineCalls p gw pair.1 pair.2)
        .ok { pedido := { p with estado := .RECIBIDO }
              calls := calls
              eventos := [{ evento := "pedido_recibido", estado := .RECIBIDO,
                            de := some p.estado }] }

/-- Embeds `src/routes/pedido.py` `marcar_recibido` (lines 74-79): the direct API
route invokes the service operation with the `x_country` and `ctx`
parameters left at their defaults (`None`). -/
def marcarRecibidoRoute (svc : PedidosService) (dbp : Option Pedido)
    (gw : Gateway) : Except PyError OpResult :=
  svc.marcarRecibido dbp none gw

/-- Embeds `services/pedido.py` `PedidosService.marcar_despachado`: `_ensure` the
order exists, require kind VENTA, require state APROBADO, set DESPACHADO
and log `pedido_despachado`; no client is built and no gateway call made. -/
def PedidosService.marcarDespachado (_svc : PedidosService)
    (dbp : Option Pedido) (_x_country : Option String) :
    Except PyError OpResult :=
  match dbp with
  | none => .error (.valueError "Pedido no encontrado")
  | some p =>
      if p.tipo ≠ PedidoTipo.VENTA then
        .error (.valueError "Solo aplica para pedidos de VENTA")
      else if p.estado ≠ PedidoEstado.APROBADO then
        .error (.valueError "Transición no válida")
      else
        .ok { pedido := { p with estado := .DESPACHADO }
              calls := []
              eventos := [{ evento := "pedido_despachado", estado := .DESPACHADO,
                            de := some p.estado }] }

/-- Embeds `services/pedido.py` `PedidosService.cancelar`: `_ensure` the order
exists, reject states RECIBIDO, DESPACHADO and CANCELADO, otherwise set
CANCELADO and log `pedido_cancelado`; no gateway call. -/
def PedidosService.cancelar (_svc : PedidosService) (dbp : Option Pedido) :
    Except PyError OpResult :=
  match dbp with
  | none => .error (.valueError "Pedido no encontrado")
  | some p =>
      if p.estado = PedidoEstado.RECIBIDO ∨ p.estado = PedidoEstado.DESPACHADO ∨
          p.estado = PedidoEstado.CANCELADO then
        .error (.valueError "No se puede cancelar en este estado")
      else
        .ok { pedido := { p with estado := .CANCELADO }
              calls := []
              eventos := [{ evento := "pedido_cancelado", estado := .CANCELADO,
                            de := some p.estado }] }

/-! ## Inbound event dispatcher (`src/routes/pubsub.py`) -/

/-- Log severities used by the dispatcher. -/
inductive LogLevel where
  | info
  | warning
  | error
  deriving Repr, DecidableEq

/-- A truthy JSON value as read from a field: either a JSON object (a
Python dict) carrying the modelled fields, or a truthy non-dict value
(list, string, number, ...).  Calling `.get` on the latter raises an
uncaught `AttributeError` in the handler. -/
inductive JsonVal (α : Type) where
  | nonDict
  | obj (val : α)
  deriving Repr, DecidableEq

/-- The `ctx` object of the decoded event. -/
structure Ctx where
  country : Option String
  deriving Repr, DecidableEq

/-- The JSON object decoded from `message.data`: the fields the dispatcher
reads.  `event` and `country` are read with `.get` (falsy handled by
`truthyStr` where Python tests truthiness); `pedido_id` is read with
`event["pedido_id"]`, raising `KeyError` when absent; `ctx` is read with
`event.get("ctx") or {}` (`none` models a missing-or-falsy value, for
which `{}` is substituted), and a truthy non-dict `ctx` later makes
`ctx_dict.get("country")` raise.  A truthy non-string `event` value is not
distinguished: it compares unequal to every dispatch key, behaving as an
unrecognized event. -/
structure EventJson where
  event : Option String
  pedido_id : Option String
  ctx : Option (JsonVal Ctx)
  country : Option String
  deriving Repr, DecidableEq

/-- The result of base64-decoding and JSON-parsing `message.data` inside
`try` (`routes/pubsub.py` lines 61-66): `failed` when either step raises
(also covering a truthy non-string `data`, on which `b64decode` raises —
caught and logged as an error); otherwise the decoded JSON value, which
need not be an object. -/
inductive DataDecode where
  | failed
  | decoded (v : JsonVal EventJson)
  deriving Repr, DecidableEq

/-- The `message` value of the envelope; `data` is `none` when
`message.get("data")` is missing or falsy. -/
structure PubsubMessage where
  data : Option DataDecode
  deriving Repr, DecidableEq

/-- The push envelope object; `message` is `none` when
`envelope.get("message")` is missing or falsy, and a truthy non-dict
`message` makes `message.get("data")` raise. -/
structure Envelope where
  message : Option (JsonVal PubsubMessage)
  deriving Repr, DecidableEq

/-- The result of `await request.json()` (inside `try`, caught and logged
as an error when it raises); a successfully parsed body is any JSON value,
and `envelope.get("message")` raises on a non-object one. -/
inductive JsonBody where
  | invalid
  | parsed (v : JsonVal Envelope)
  deriving Repr, DecidableEq

/-- An orchestrator operation the dispatcher can invoke, with the arguments
it passes (`pedido_id`, and for the two `marcar_*` events the resolved
country). -/
inductive PubsubOp where
  | recibido (pedido_id : String) (country : String)
  | despachado (pedido_id : String) (country : String)
  | cancelado (pedido_id : String)
  deriving Repr, DecidableEq

/-- Outcome oracle for the dispatched service call: success, a
`ValueError` (business validation), or any other exception. -/
inductive DispatchOutcome where
  | ok
  | businessError (msg : String)
  | unexpectedError (msg : String)
  deriving Repr, DecidableEq

/-- What the dispatcher did: the HTTP status it answered, the operation it
invoked (if any), and the log lines it emitted (severity and tag). -/
structure PubsubResult where
  status : Nat
  dispatched : Option PubsubOp
  logs : List (LogLevel × String)
  deriving Repr, DecidableEq

/-- Country resolution (`routes/pubsub.py` lines 78-82):
`ctx_dict.get("country") or event.get("country") or
settings.DEFAULT_SCHEMA`, where `ctx_dict = event.get("ctx") or {}` (line
71).  The line runs only once `event_type` is truthy, and a truthy
non-dict `ctx` makes `ctx_dict.get("country")` raise an uncaught
`AttributeError`. -/
def resolveCountry (e : EventJson) : Except PyError String :=
  match e.ctx with
  | some .nonDict => .error (.attributeError "get")
  | some (.obj c) =>
      .ok (match truthyStr c.country with
           | some s => s
           | none =>
               match truthyStr e.country with
               | some s => s
               | none => settings.DEFAULT_SCHEMA)
  | none =>
      .ok (match truthyStr e.country with
           | some s => s
           | none => settings.DEFAULT_SCHEMA)

/-- The dispatch block of the handler (`routes/pubsub.py` lines 87-125):
route the event to the matching service operation (reading
`event["pedido_id"]`, whose absence raises `KeyError`, caught by the outer
`except Exception`); log `info` on success, `warning` on a `ValueError`
(business failure, not retried), `error` on any other exception; an
unrecognized event only logs `info`.  The country was resolved before the
`try` block. -/
def dispatchEvent (e : EventJson) (event_type country : String)
    (outcome : PubsubOp → DispatchOutcome) :
    Option PubsubOp × List (LogLevel × String) :=
  if event_type = "pedido_recibido" ∨ event_type = "pedido_despachado" ∨
      event_type = "pedido_cancelado" then
    match e.pedido_id with
    | none => (none, [(.error, "Error procesando " ++ event_type)])
    | some pid =>
        let op : PubsubOp :=
          if event_type = "pedido_recibido" then .recibido pid country
          else if event_type = "pedido_despachado" then .despachado pid country
          else .cancelado pid
        match outcome op with
        | .ok => (some op, [(.info, event_type ++ " procesado OK")])
        | .businessError _ =>
            (some op, [(.warning, "Error de negocio en " ++ event_type)])
        | .unexpectedError _ =>
            (some op, [(.error, "Error procesando " ++ event_type)])
  else (none, [(.info, "Evento no manejado: " ++ event_type)])

/-- Embeds `src/routes/pubsub.py` `handle_pubsub_push`: decode the envelope
stage by stage — a JSON-parse failure, missing/falsy `message`,
missing/falsy `data`, a base64/JSON decode failure, or a missing/falsy
`event` each end in an acknowledged no-op (status 204, nothing
dispatched) — resolve the country, then dispatch by event type,
answering 204.  Only the JSON parse, the data decode, and the dispatch
block sit inside `try`: a `.get` on a parsed non-dict value — a
non-object body, a truthy non-dict `message`, `data` decoding to a
non-object, or (with a truthy event) a truthy non-dict `ctx` — raises an
uncaught `AttributeError`, which FastAPI surfaces as HTTP 500. -/
def handle_pubsub_push (body : JsonBody)
    (outcome : PubsubOp → DispatchOutcome) : Except PyError PubsubResult :=
  match body with
  | .invalid => .ok { status := 204, dispatched := none
                      logs := [(.error, "Envelope inválido")] }
  | .parsed .nonDict => .error (.attributeError "get")
  | .parsed (.obj envelope) =>
      match envelope.message with
      | none => .ok { status := 204, dispatched := none
                      logs := [(.warning, "Envelope sin 'message'")] }
      | some .nonDict => .error (.attributeError "get")
      | some (.obj message) =>
          match message.data with
          | none => .ok { status := 204, dispatched := none
                          logs := [(.warning, "message.data faltante")] }
          | some .failed => .ok { status := 204, dispatched := none
                                  logs := [(.error, "Error decodificando data")] }
          | some (.decoded .nonDict) => .error (.attributeError "get")
          | some (.decoded (.obj e)) =>
              match truthyStr e.event with
              | none => .ok { status := 204, dispatched := none
                              logs := [(.warning, "Evento sin 'event'")] }
              | some event_type =>
                  match resolveCountry e with
                  | .error err => .error err
                  | .ok country =>
                      let r := dispatchEvent e event_type country outcome
                      .ok { status := 204, dispatched := r.1, logs := r.2 }

end MsPedidos

namespace MsPedidos

/-- The net amount of one line as the specification states it:
`unit_price × quantity − (unit_price × quantity × discount_pct / 100)`,
missing values treated as zero.  Written from the spec (§4.2) to be compared
with `calcular_totales`. -/
def specNet (it : PedidoItem) : ℚ :=
  _dec it.precio_unitario * (it.cantidad : ℚ) -
    _dec it.precio_unitario * (it.cantidad : ℚ) * _dec it.descuento_pct / 100

/-- The tax amount of one line as the specification states it:
`net × tax_pct / 100`. -/
def specTax (it : PedidoItem) : ℚ := specNet it * _dec it.impuesto_pct / 100

/-! ## Concrete instances, used to evaluate the definitions on fixed inputs -/

/-- A gateway whose responses carry none of the fields the service reads. -/
def gw0 : Gateway :=
  { ocResp := fun _ => none
    fefoToken := fun _ _ => none
    loteId := fun _ _ => none
    ubicacionId := fun _ => none }

/-- A gateway answering every call with well-formed bodies: purchase-order
id `OC-77`, FEFO token `T1` for product `prodA` and `T2` otherwise, lot id
`LOTE-ID-1`, location id `UBI-1`. -/
def gwW : Gateway :=
  { ocResp := fun _ => some "OC-77"
    fefoToken := fun pid _ => if pid = "prodA" then some "T1" else some "T2"
    loteId := fun _ _ => some "LOTE-ID-1"
    ubicacionId := fun _ => some "UBI-1" }

/-- Fixed ambient values: day 20000, a generated code, a database id. -/
def amb0 : Amb := { today := 20000, codigo := "PO-2025-AB12CD", pedido_id := "ped-1" }

/-- A payload line for product `prodA`. -/
def itemPayloadA : ItemPayload :=
  { producto_id := "prodA", cantidad := 2, precio_unitario := some 10
    impuesto_pct := some 19, descuento_pct := some 5, sku := some "SKU-A" }

/-- A payload line for product `prodB` with all optional amounts missing. -/
def itemPayloadB : ItemPayload :=
  { producto_id := "prodB", cantidad := 3, precio_unitario := none
    impuesto_pct := none, descuento_pct := none, sku := none }

/-- A PURCHASE creation payload with no explicit receipt date. -/
def compraPayloadNoFecha : CrearPayload :=
  { tipo := .COMPRA, proveedor_id := some "prov-1", bodega_destino_id := some "bod-1"
    cliente_id := none, vendedor_id := none, bodega_origen_id := none
    observaciones := none, fecha_recepcion := none, fecha_entrega := none
    items := [itemPayloadA] }

/-- A SALE creation payload with no explicit delivery date. -/
def ventaPayloadNoFecha : CrearPayload :=
  { tipo := .VENTA, proveedor_id := none, bodega_destino_id := none
    cliente_id := some 7, vendedor_id := some 8, bodega_origen_id := some "bodO"
    observaciones := none, fecha_recepcion := none, fecha_entrega := none
    items := [itemPayloadA] }

/-- A SALE creation payload with two lines and an explicit delivery date. -/
def ventaPayloadW : CrearPayload :=
  { ventaPayloadNoFecha with fecha_entrega := some 20010
                             items := [itemPayloadA, itemPayloadB] }

/-- The token each line of `ventaPayloadW` obtains from `gwW`. -/
def tokW : ItemPayload → String :=
  fun it => if it.producto_id = "prodA" then "T1" else "T2"

/-- The creation result for `ventaPayloadW` against `gwW`. -/
def ventaResW : OpResult := crearCore ventaPayloadW amb0 gwW 20010

/-- A PURCHASE creation payload with an explicit receipt date. -/
def compraPayloadW : CrearPayload :=
  { compraPayloadNoFecha with fecha_recepcion := some 20020 }

/-- The item row the orchestrator builds for `itemPayloadA`. -/
def itemRowA : PedidoItem := itemOf itemPayloadA

/-- A persisted PURCHASE order in state APROBADO with one line. -/
def compraAprobada : Pedido :=
  { id := "ped-2", codigo := "PO-2025-ZZ99XX", tipo := .COMPRA, estado := .APROBADO
    observaciones := none, fecha_compromiso := 20020, proveedor_id := some "prov-1"
    oc_id := some "OC-77", cliente_id := none, vendedor_id := none
    bodega_origen_id := none, bodega_destino_id := some "bod-1"
    reserva_token := none, subtotal := 19, impuesto_total := 361/100
    total := 2261/100, items := [itemRowA] }

/-- A persisted SALE order in state APROBADO with one line. -/
def ventaAprobada : Pedido :=
  { id := "ped-3", codigo := "SO-2025-AA11BB", tipo := .VENTA, estado := .APROBADO
    observaciones := none, fecha_compromiso := 20010, proveedor_id := none
    oc_id := none, cliente_id := some 7, vendedor_id := some 8
    bodega_origen_id := some "bodO", bodega_destino_id := none
    reserva_token := some "T1", subtotal := 19, impuesto_total := 361/100
    total := 2261/100, items := [itemRowA] }

/-- A persisted order still in DRAFT. -/
def pedidoBorrador : Pedido := { ventaAprobada with id := "ped-4", estado := .BORRADOR }

/-- A decoded inbound event of type `pedido_recibido` with a `ctx` country. -/
def eventJsonW : EventJson :=
  { event := some "pedido_recibido", pedido_id := some "ped-9"
    ctx := some (.obj { country := some "mx" }), country := none }

/-- A well-formed push body around `eventJsonW`. -/
def bodyW : JsonBody :=
  .parsed (.obj { message := some (.obj { data := some (.decoded (.obj eventJsonW)) }) })

/-- A dispatch oracle whose every operation fails business validation. -/
def outcomeW : PubsubOp → DispatchOutcome :=
  fun _ => .businessError "Transición no válida"

/-- Decides whether a push request is one of the acknowledged no-op cases
the claim enumerates: invalid JSON, missing `message`, missing or falsy
`data`, an undecodable `data`, or a missing or falsy `event` (the
remaining object fields well-shaped along the way). -/
def preDispatchNoOp : JsonBody → Bool
  | .invalid => true
  | .parsed .nonDict => false
  | .parsed (.obj env) =>
      match env.message with
      | none => true
      | some .nonDict => false
      | some (.obj m) =>
          match m.data with
          | none => true
          | some .failed => true
          | some (.decoded .nonDict) => false
          | some (.decoded (.obj e)) => (truthyStr e.event).isNone

/-- Decides whether the push request has one of the shapes on which the
handler calls `.get` on a non-dict and raises an uncaught `AttributeError`
(surfaced as HTTP 500): a valid-JSON non-object body, a truthy non-dict
`message`, `data` decoding to a non-object, or a truthy non-dict `ctx`
together with a truthy `event`. -/
def rawShapeError : JsonBody → Bool
  | .invalid => false
  | .parsed .nonDict => true
  | .parsed (.obj env) =>
      match env.message with
      | none => false
      | some .nonDict => true
      | some (.obj m) =>
          match m.data with
          | none => false
          | some .failed => false
          | some (.decoded .nonDict) => true
          | some (.decoded (.obj e)) =>
              match truthyStr e.event, e.ctx with
              | some _, some .nonDict => true
              | _, _ => false

theorem totalesAux_eq (items : List PedidoItem) :
    ∀ sub imp : ℚ,
      totalesAux items (sub, imp) =
        (sub + (items.map specNet).sum, imp + (items.map specTax).sum) := by
  induction items with
  | nil => intro sub imp; simp [totalesAux]
  | cons it rest ih =>
      intro sub imp
      simp only [totalesAux, List.map_cons, List.sum_cons, ih, Prod.mk.injEq]
      constructor <;> · simp only [specNet, specTax]; ring

/-- Inversion for `crear`: a successful creation is the core pipeline run
on a successfully computed commitment date. -/
theorem crear_ok_inv {svc : PedidosService} {payload : CrearPayload}
    {amb : Amb} {gw : Gateway} {r : OpResult}
    (h : svc.crear payload amb gw = .ok r) :
    ∃ fc, fechaCompromiso svc payload amb.today = .ok fc ∧
      r = crearCore payload amb gw fc := by
  unfold PedidosService.crear at h
  cases hfc : fechaCompromiso svc payload amb.today with
  | error e => rw [hfc] at h; exact absurd h (by simp)
  | ok fc => rw [hfc] at h; exact ⟨fc, rfl, by simpa using h.symm⟩

/-- Projections of the VENTA branch of the creation pipeline. -/
theorem crearCore_venta {payload : CrearPayload} (amb : Amb) (gw : Gateway)
    (fc : Int) (htipo : payload.tipo = PedidoTipo.VENTA) :
    (crearCore payload amb gw fc).calls =
      payload.items.map (fun it => GwCall.postSalidaFefo it.producto_id it.cantidad) ∧
    (crearCore payload amb gw fc).pedido.reserva_token =
      some (String.intercalate ","
        (payload.items.map (fun it => tokenOrOk (gw.fefoToken it.producto_id it.cantidad)))) ∧
    (crearCore payload amb gw fc).pedido.estado = PedidoEstado.APROBADO ∧
    (crearCore payload amb gw fc).eventos.map (fun e => e.evento) =
      ["pedido_creado", "pedido_creado", "pedido_aprobado", "salida_fefo"] := by
  refine ⟨?_, ?_, ?_, ?_⟩
  · simp [crearCore, htipo, calcular_totales, List.map_map, Function.comp_def, itemOf]
  · simp [crearCore, htipo, calcular_totales, List.map_map, Function.comp_def, itemOf]
  · simp [crearCore, htipo]
  · simp [crearCore, htipo]

/-- Projections of the COMPRA branch of the creation pipeline, when the
purchase-order response carries a truthy `id`. -/
theorem crearCore_compra {payload : CrearPayload} (amb : Amb) (gw : Gateway)
    (fc : Int) (X : String) (htipo : payload.tipo = PedidoTipo.COMPRA)
    (hX : X ≠ "") (hoc : ∀ b, gw.ocResp b = some X) :
    (crearCore payload amb gw fc).pedido.oc_id = some X ∧
    (crearCore payload amb gw fc).pedido.estado = PedidoEstado.APROBADO ∧
    (∃ body, (crearCore payload amb gw fc).calls = [GwCall.postOrdenesCompra body]) ∧
    (crearCore payload amb gw fc).eventos.map (fun e => e.evento) =
      ["pedido_creado", "pedido_creado", "pedido_aprobado", "oc_creada"] := by
  refine ⟨?_, ?_, ?_, ?_⟩ <;>
    simp [crearCore, htipo, hoc, truthyStr, if_neg hX]

/-- Claim C2: for every order, `calcular_totales` sets
`subtotal = Σ net`, `tax_total = Σ net·tax_pct/100` and
`total = subtotal + tax_total`, where per line
`net = unit_price·quantity − unit_price·quantity·discount_pct/100`,
computed in exact decimal arithmetic (embedded as `ℚ`), a missing
`unit_price`, `discount_pct` or `tax_pct` treated as zero. -/
theorem C2_calcular_totales (p : Pedido) :
    (calcular_totales p).subtotal = (p.items.map specNet).sum ∧
    (calcular_totales p).impuesto_total = (p.items.map specTax).sum ∧
    (calcular_totales p).total =
      (p.items.map specNet).sum + (p.items.map specTax).sum := by
  simp only [calcular_totales, totalesAux_eq]
  simp

/-- Claim C1 (code evaluation at the failing input): creating a PURCHASE
order without an explicit receipt date crashes with
`AttributeError DEFAULT_COMPRA_LEAD_DAYS` instead of falling back to a
configured default lead time; creating a SALE order without an explicit
delivery date crashes with `AttributeError DEFAULT_VENTA_LEAD_DAYS`; and
the supplier lead-time query of a freshly constructed service resolves no
lead time at all, because `_lead_time_dias` reads `self.ms`, an attribute
`__init__` never assigns (the `client` parameter is passed but unused). -/
theorem C1_lead_time_defaults_crash :
    PedidosService.init.crear compraPayloadNoFecha amb0 gw0 =
      .error (.attributeError "DEFAULT_COMPRA_LEAD_DAYS") ∧
    PedidosService.init.crear ventaPayloadNoFecha amb0 gw0 =
      .error (.attributeError "DEFAULT_VENTA_LEAD_DAYS") ∧
    PedidosService.init.leadTimeDias "prov-1" "prodA" = none :=
  ⟨rfl, rfl, rfl⟩

/-- Claim C3: for every SALE order created via `crear` with `n` lines,
exactly one FEFO-issue gateway call (`POST /v1/inventario/salida/fefo`
with that line's product id and quantity) is made per line, the order's
reservation token is the `n` returned tokens joined by `","`, the order
ends in state APROBADO, and at least two audit events are recorded
(creation, auto-approval, FEFO-completion). -/
theorem C3_venta_fefo (svc : PedidosService) (payload : CrearPayload)
    (amb : Amb) (gw : Gateway) (r : OpResult) (tok : ItemPayload → String)
    (htipo : payload.tipo = PedidoTipo.VENTA)
    (htok : ∀ it ∈ payload.items,
      gw.fefoToken it.producto_id it.cantidad = some (tok it) ∧ tok it ≠ "")
    (h : svc.crear payload amb gw = .ok r) :
    r.calls = payload.items.map
      (fun it => GwCall.postSalidaFefo it.producto_id it.cantidad) ∧
    (∀ c ∈ r.calls, c.path = "/v1/inventario/salida/fefo") ∧
    r.pedido.reserva_token =
      some (String.intercalate "," (payload.items.map tok)) ∧
    r.pedido.estado = PedidoEstado.APROBADO ∧
    2 ≤ r.eventos.length ∧
    "pedido_creado" ∈ r.eventos.map (fun e => e.evento) ∧
    "pedido_aprobado" ∈ r.eventos.map (fun e => e.evento) ∧
    "salida_fefo" ∈ r.eventos.map (fun e => e.evento) := by
  obtain ⟨fc, _, hr⟩ := crear_ok_inv h
  subst hr
  obtain ⟨hcalls, hres, hest, hev⟩ := crearCore_venta amb gw fc htipo
  have hlen : (crearCore payload amb gw fc).eventos.length = 4 := by
    have := congrArg List.length hev
    simpa using this
  refine ⟨hcalls, ?_, ?_, hest, by omega, ?_, ?_, ?_⟩
  · intro c hc
    rw [hcalls] at hc
    obtain ⟨it, _, rfl⟩ := List.mem_map.1 hc
    rfl
  · rw [hres]
    congr 1
    congr 1
    refine List.map_congr_left (fun it hit => ?_)
    obtain ⟨hsome, hne⟩ := htok it hit
    simp [hsome, tokenOrOk, truthyStr, hne]
  · rw [hev]; simp
  · rw [hev]; simp
  · rw [hev]; simp

/-- Witness for C3 at a concrete two-line SALE payload against the
gateway `gwW`. -/
theorem C3_venta_fefo_witness :
    PedidosService.init.crear ventaPayloadW amb0 gwW = .ok ventaResW ∧
    ventaResW.calls =
      [GwCall.postSalidaFefo "prodA" 2, GwCall.postSalidaFefo "prodB" 3] ∧
    ventaResW.pedido.reserva_token = some "T1,T2" ∧
    ventaResW.pedido.estado = PedidoEstado.APROBADO ∧
    2 ≤ ventaResW.eventos.length := by
  have h := C3_venta_fefo PedidosService.init ventaPayloadW amb0 gwW ventaResW
    tokW rfl (by decide) rfl
  refine ⟨rfl, ?_, ?_, h.2.2.2.1, h.2.2.2.2.1⟩
  · rw [h.1]; rfl
  · rw [h.2.2.1]; rfl

/-- Claim C4: for every PURCHASE order created via `crear`, when the
gateway's purchase-order-create call (`POST /v1/ordenes-compra`) returns
an object with id `X`, the resulting order has `oc_id = X`, ends in state
APROBADO, and an audit event `oc_creada` recording the external-PO link
is written. -/
theorem C4_compra_oc_link (svc : PedidosService) (payload : CrearPayload)
    (amb : Amb) (gw : Gateway) (r : OpResult) (X : String)
    (htipo : payload.tipo = PedidoTipo.COMPRA) (hX : X ≠ "")
    (hoc : ∀ b, gw.ocResp b = some X)
    (h : svc.crear payload amb gw = .ok r) :
    r.pedido.oc_id = some X ∧
    r.pedido.estado = PedidoEstado.APROBADO ∧
    (∃ body, r.calls = [GwCall.postOrdenesCompra body]) ∧
    "oc_creada" ∈ r.eventos.map (fun e => e.evento) := by
  obtain ⟨fc, _, hr⟩ := crear_ok_inv h
  subst hr
  obtain ⟨hoc_id, hest, hcalls, hev⟩ := crearCore_compra amb gw fc X htipo hX hoc
  exact ⟨hoc_id, hest, hcalls, by rw [hev]; simp⟩

/-- Witness for C4 at a concrete one-line PURCHASE payload with an
explicit receipt date, against the gateway `gwW` (id `OC-77`). -/
theorem C4_compra_oc_link_witness :
    PedidosService.init.crear compraPayloadW amb0 gwW =
      .ok (crearCore compraPayloadW amb0 gwW 20020) ∧
    (crearCore compraPayloadW amb0 gwW 20020).pedido.oc_id = some "OC-77" ∧
    (crearCore compraPayloadW amb0 gwW 20020).pedido.estado =
      PedidoEstado.APROBADO := by
  have h := C4_compra_oc_link PedidosService.init compraPayloadW amb0 gwW
    (crearCore compraPayloadW amb0 gwW 20020) "OC-77" rfl (by decide)
    (fun _ => rfl) rfl
  exact ⟨rfl, h.1, h.2.1⟩

/-- Per-line call counts of the receipt orchestration: each line issues
exactly one lot-create, exactly one receipt-registration, and one
location-create exactly when the line carries no truthy location id. -/
theorem recepcionLineCalls_counts (p : Pedido) (gw : Gateway) (idx : Nat)
    (it : PedidoItem) :
    (recepcionLineCalls p gw idx it).countP
        (fun cl => cl.path = "/v1/inventario/lote") = 1 ∧
    (recepcionLineCalls p gw idx it).countP
        (fun cl => cl.path = "/v1/inventario/entrada") = 1 ∧
    (recepcionLineCalls p gw idx it).countP
        (fun cl => cl.path = "/v1/inventario/ubicacion") =
      (if (truthyStr it.ubicacion_id).isNone then 1 else 0) := by
  unfold recepcionLineCalls
  cases truthyStr it.ubicacion_id <;>
    simp [GwCall.path, List.countP_cons]

/-- Aggregated call counts of the receipt orchestration over an item list
(the enumeration start `k` is arbitrary). -/
theorem recepcion_calls_counts (p : Pedido) (gw : Gateway) :
    ∀ (items : List PedidoItem) (k : Nat),
      ((items.enumFrom k).flatMap
          (fun pair => recepcionLineCalls p gw pair.1 pair.2)).countP
        (fun cl => cl.path = "/v1/inventario/lote") = items.length ∧
      ((items.enumFrom k).flatMap
          (fun pair => recepcionLineCalls p gw pair.1 pair.2)).countP
        (fun cl => cl.path = "/v1/inventario/entrada") = items.length ∧
      ((items.enumFrom k).flatMap
          (fun pair => recepcionLineCalls p gw pair.1 pair.2)).countP
        (fun cl => cl.path = "/v1/inventario/ubicacion") =
      (items.filter (fun it => (truthyStr it.ubicacion_id).isNone)).length := by
  intro items
  induction items with
  | nil => intro k; simp
  | cons it rest ih =>
      intro k
      obtain ⟨ha, hb, hc⟩ := recepcionLineCalls_counts p gw k it
      obtain ⟨ia, ib, ic⟩ := ih (k + 1)
      refine ⟨?_, ?_, ?_⟩
      · simp only [List.enumFrom, List.flatMap_cons, List.countP_append,
          List.length_cons, ha, ia]
        omega
      · simp only [List.enumFrom, List.flatMap_cons, List.countP_append,
          List.length_cons, hb, ib]
        omega
      · simp only [List.enumFrom, List.flatMap_cons, List.countP_append,
          List.filter_cons, hc, ic]
        cases h : (truthyStr it.ubicacion_id).isNone <;>
          simp only [h, if_true, if_false, List.length_cons,
            Bool.false_eq_true, ite_true, ite_false] <;> omega


/-- Content of each line's receipt-registration call: it carries that
line's quantity and the literal state `DISPONIBLE`, and each line issues
one. -/
theorem recepcionLineCalls_entrada (p : Pedido) (gw : Gateway) (idx : Nat)
    (it : PedidoItem) :
    (∃ lote ub, GwCall.postEntrada lote ub it.cantidad "DISPONIBLE" ∈
        recepcionLineCalls p gw idx it) ∧
    (∀ lote ub q est, GwCall.postEntrada lote ub q est ∈
        recepcionLineCalls p gw idx it →
      q = it.cantidad ∧ est = "DISPONIBLE") := by
  cases h : truthyStr it.ubicacion_id with
  | none =>
      simp only [recepcionLineCalls, h]
      constructor
      · exact ⟨_, _, List.mem_cons_of_mem _ (List.mem_cons_of_mem _
          (List.mem_cons_self _ _))⟩
      · intro lote ub q est hmem
        simp at hmem
        exact ⟨hmem.2.2.1, hmem.2.2.2⟩
  | some u =>
      simp only [recepcionLineCalls, h]
      constructor
      · exact ⟨_, _, List.mem_cons_of_mem _ (List.mem_cons_self _ _)⟩
      · intro lote ub q est hmem
        simp at hmem
        exact ⟨hmem.2.2.1, hmem.2.2.2⟩

/-- Aggregated receipt-call content over an item list: every line
contributes a receipt registration of its quantity as `DISPONIBLE`, and
every receipt registration issued carries some line's quantity and the
state `DISPONIBLE`. -/
theorem recepcion_calls_entrada (p : Pedido) (gw : Gateway) :
    ∀ (items : List PedidoItem) (k : Nat),
      (∀ it ∈ items, ∃ lote ub,
        GwCall.postEntrada lote ub it.cantidad "DISPONIBLE" ∈
          (items.enumFrom k).flatMap
            (fun pair => recepcionLineCalls p gw pair.1 pair.2)) ∧
      (∀ lote ub q est,
        GwCall.postEntrada lote ub q est ∈
          (items.enumFrom k).flatMap
            (fun pair => recepcionLineCalls p gw pair.1 pair.2) →
        est = "DISPONIBLE" ∧ q ∈ items.map (fun it => it.cantidad)) := by
  intro items
  induction items with
  | nil => intro k; simp
  | cons it rest ih =>
      intro k
      obtain ⟨ihm, ihw⟩ := ih (k + 1)
      constructor
      · intro x hx
        simp only [List.enumFrom, List.flatMap_cons, List.mem_append]
        rcases List.mem_cons.1 hx with rfl | hx2
        · obtain ⟨lote, ub, hm⟩ := (recepcionLineCalls_entrada p gw k x).1
          exact ⟨lote, ub, Or.inl hm⟩
        · obtain ⟨lote, ub, hm⟩ := ihm x hx2
          exact ⟨lote, ub, Or.inr hm⟩
      · intro lote ub q est hmem
        simp only [List.enumFrom, List.flatMap_cons, List.mem_append] at hmem
        rcases hmem with hm | hm
        · obtain ⟨hq, hest⟩ := (recepcionLineCalls_entrada p gw k it).2 lote ub q est hm
          exact ⟨hest, by simp [hq]⟩
        · obtain ⟨hest, hq⟩ := ihw lote ub q est hm
          refine ⟨hest, ?_⟩
          rw [List.map_cons]
          exact List.mem_cons_of_mem _ hq

/-- Counterexample to claim C5 as stated: a PURCHASE order in state
APROBADO with one line is marked received through an invocation with no
tenant/country tag (exactly what the direct API route passes); the call
succeeds and transitions the order to RECIBIDO, yet issues zero gateway
calls — not one lot-create/location/receipt call per line. -/
theorem C5_counterexample :
    compraAprobada.tipo = PedidoTipo.COMPRA ∧
    compraAprobada.estado = PedidoEstado.APROBADO ∧
    compraAprobada.items.length = 1 ∧
    PedidosService.init.marcarRecibido (some compraAprobada) none gw0 =
      .ok { pedido := { compraAprobada with estado := .RECIBIDO }
            calls := []
            eventos := [{ evento := "pedido_recibido", estado := .RECIBIDO,
                          de := some PedidoEstado.APROBADO }] } ∧
    ([] : List GwCall).length ≠ compraAprobada.items.length :=
  ⟨rfl, rfl, rfl, rfl, by decide⟩

/-- Claim C5 (amended): `marcar_recibido` succeeds only on a PURCHASE
order in state APROBADO or EN_TRANSITO, transitioning it to RECIBIDO; on a
SALE order it fails with the kind-mismatch error, and on an invalid source
state with the invalid-transition error, the order unchanged (no success
value is produced and, the guards failing before any client is built, no
gateway call is made).  Without a truthy tenant/country tag — as the
direct API route calls it — the transition still succeeds with zero
gateway calls, and a non-empty call list requires a truthy tag.  When a
truthy tag is supplied, the per-line external effects happen: exactly one
lot-create, one location resolution (a default location is created when
the line has no location id), and one receipt registration per line
carrying that line's quantity as `DISPONIBLE` (AVAILABLE). -/
theorem C5_amended (svc : PedidosService) (p : Pedido) (c : String)
    (gw : Gateway) :
    (∀ xc, p.tipo ≠ PedidoTipo.COMPRA →
      svc.marcarRecibido (some p) xc gw =
        .error (.valueError "Solo aplica para pedidos de COMPRA")) ∧
    (∀ xc, p.tipo = PedidoTipo.COMPRA →
      p.estado ≠ PedidoEstado.APROBADO → p.estado ≠ PedidoEstado.EN_TRANSITO →
      svc.marcarRecibido (some p) xc gw =
        .error (.valueError "Transición no válida")) ∧
    (∀ xc r, svc.marcarRecibido (some p) xc gw = .ok r →
      p.tipo = PedidoTipo.COMPRA ∧
      (p.estado = PedidoEstado.APROBADO ∨ p.estado = PedidoEstado.EN_TRANSITO) ∧
      r.pedido.estado = PedidoEstado.RECIBIDO) ∧
    (∀ xc, p.tipo = PedidoTipo.COMPRA →
      (p.estado = PedidoEstado.APROBADO ∨ p.estado = PedidoEstado.EN_TRANSITO) →
      truthyStr xc = none →
      svc.marcarRecibido (some p) xc gw =
        .ok { pedido := { p with estado := .RECIBIDO }
              calls := []
              eventos := [{ evento := "pedido_recibido", estado := .RECIBIDO,
                            de := some p.estado }] }) ∧
    (∀ xc r, svc.marcarRecibido (some p) xc gw = .ok r → r.calls ≠ [] →
      truthyStr xc ≠ none) ∧
    (p.tipo = PedidoTipo.COMPRA →
      (p.estado = PedidoEstado.APROBADO ∨ p.estado = PedidoEstado.EN_TRANSITO) →
      c ≠ "" →
      ∃ r, svc.marcarRecibido (some p) (some c) gw = .ok r ∧
        r.pedido.estado = PedidoEstado.RECIBIDO ∧
        r.calls.countP (fun cl => cl.path = "/v1/inventario/lote") =
          p.items.length ∧
        r.calls.countP (fun cl => cl.path = "/v1/inventario/entrada") =
          p.items.length ∧
        r.calls.countP (fun cl => cl.path = "/v1/inventario/ubicacion") =
          (p.items.filter (fun it => (truthyStr it.ubicacion_id).isNone)).length ∧
        (∀ it ∈ p.items, ∃ lote ub,
          GwCall.postEntrada lote ub it.cantidad "DISPONIBLE" ∈ r.calls) ∧
        (∀ lote ub q est, GwCall.postEntrada lote ub q est ∈ r.calls →
          est = "DISPONIBLE" ∧ q ∈ p.items.map (fun it => it.cantidad))) := by
  refine ⟨?_, ?_, ?_, ?_, ?_, ?_⟩
  · intro xc h
    simp [PedidosService.marcarRecibido, h]
  · intro xc h1 h2 h3
    simp [PedidosService.marcarRecibido, h1, h2, h3]
  · intro xc r h
    simp only [PedidosService.marcarRecibido] at h
    by_cases h1 : p.tipo = PedidoTipo.COMPRA
    · rw [if_neg (by simp [h1])] at h
      by_cases h2 : p.estado = PedidoEstado.APROBADO ∨ p.estado = PedidoEstado.EN_TRANSITO
      · rw [if_neg (by tauto)] at h
        refine ⟨h1, h2, ?_⟩
        obtain rfl : _ = r := Except.ok.inj h
        rfl
      · rw [if_pos (by tauto)] at h
        exact absurd h (by simp)
    · rw [if_pos (by simp [h1])] at h
      exact absurd h (by simp)
  · intro xc h1 h2 hxc
    simp only [PedidosService.marcarRecibido]
    rw [if_neg (by simp [h1]), if_neg (by tauto), hxc]
  · intro xc r h hne hnone
    simp only [PedidosService.marcarRecibido] at h
    split at h
    · exact absurd h (by simp)
    · split at h
      · exact absurd h (by simp)
      · rw [hnone] at h
        obtain rfl : _ = r := Except.ok.inj h
        exact hne rfl
  · intro h1 h2 hc
    refine ⟨{ pedido := { p with estado := .RECIBIDO }
              calls := (p.items.enumFrom 1).flatMap
                (fun pair => recepcionLineCalls p gw pair.1 pair.2)
              eventos := [{ evento := "pedido_recibido", estado := .RECIBIDO,
                            de := some p.estado }] }, ?_, rfl, ?_, ?_, ?_, ?_, ?_⟩
    · simp only [PedidosService.marcarRecibido]
      rw [if_neg (by simp [h1]), if_neg (by tauto)]
      simp [truthyStr, hc]
    · exact (recepcion_calls_counts p gw p.items 1).1
    · exact (recepcion_calls_counts p gw p.items 1).2.1
    · exact (recepcion_calls_counts p gw p.items 1).2.2
    · exact (recepcion_calls_entrada p gw p.items 1).1
    · exact (recepcion_calls_entrada p gw p.items 1).2

/-- Witness for the amended C5 at a concrete PURCHASE order in APROBADO:
with country tag `"co"` the per-line calls are issued with the line's
quantity as `DISPONIBLE`; without a tag the transition succeeds with zero
calls. -/
theorem C5_amended_witness :
    (∃ r, PedidosService.init.marcarRecibido (some compraAprobada) (some "co") gwW =
        .ok r ∧
      r.pedido.estado = PedidoEstado.RECIBIDO ∧
      r.calls.countP (fun cl => cl.path = "/v1/inventario/lote") =
        compraAprobada.items.length ∧
      r.calls.countP (fun cl => cl.path = "/v1/inventario/entrada") =
        compraAprobada.items.length ∧
      (∀ it ∈ compraAprobada.items, ∃ lote ub,
        GwCall.postEntrada lote ub it.cantidad "DISPONIBLE" ∈ r.calls)) ∧
    PedidosService.init.marcarRecibido (some compraAprobada) none gwW =
      .ok { pedido := { compraAprobada with estado := .RECIBIDO }
            calls := []
            eventos := [{ evento := "pedido_recibido", estado := .RECIBIDO,
                          de := some compraAprobada.estado }] } := by
  constructor
  · obtain ⟨r, ha, hb, hc, hd, _, hf, _⟩ :=
      (C5_amended PedidosService.init compraAprobada "co" gwW).2.2.2.2.2
        rfl (Or.inl rfl) (by decide)
    exact ⟨r, ha, hb, hc, hd, hf⟩
  · exact (C5_amended PedidosService.init compraAprobada "co" gwW).2.2.2.1
      none rfl (Or.inl rfl) rfl

/-- Claim C6: `cancelar` raises the business-validation state error if and
only if the order is in RECIBIDO, DESPACHADO or CANCELADO (no changed
order is produced then — the error carries no state), and from every
other state it succeeds, returning the order unchanged apart from its
state becoming CANCELADO, for both order kinds, with no gateway call and
one `pedido_cancelado` audit event recording the prior state. -/
theorem C6_cancelar (svc : PedidosService) (p : Pedido) :
    ((p.estado = PedidoEstado.RECIBIDO ∨ p.estado = PedidoEstado.DESPACHADO ∨
        p.estado = PedidoEstado.CANCELADO) ↔
      svc.cancelar (some p) =
        .error (.valueError "No se puede cancelar en este estado")) ∧
    (¬(p.estado = PedidoEstado.RECIBIDO ∨ p.estado = PedidoEstado.DESPACHADO ∨
        p.estado = PedidoEstado.CANCELADO) →
      svc.cancelar (some p) =
        .ok { pedido := { p with estado := .CANCELADO }
              calls := []
              eventos := [{ evento := "pedido_cancelado", estado := .CANCELADO,
                            de := some p.estado }] }) := by
  constructor
  · constructor
    · intro h
      simp [PedidosService.cancelar, h]
    · intro h
      by_contra hbad
      simp only [PedidosService.cancelar] at h
      rw [if_neg hbad] at h
      exact absurd h (by simp)
  · intro h
    simp only [PedidosService.cancelar]
    rw [if_neg h]

/-- Witness for C6 at a concrete order in DRAFT: cancellation succeeds and
changes only the state. -/
theorem C6_cancelar_witness :
    PedidosService.init.cancelar (some pedidoBorrador) =
      .ok { pedido := { pedidoBorrador with estado := .CANCELADO }
            calls := []
            eventos := [{ evento := "pedido_cancelado", estado := .CANCELADO,
                          de := some pedidoBorrador.estado }] } :=
  (C6_cancelar PedidosService.init pedidoBorrador).2 (by decide)

/-- Claim C7: `marcar_despachado` succeeds only on a SALE order in state
APROBADO, transitioning it to DESPACHADO with no gateway calls; invoking
it a second time on the resulting order fails with the invalid-transition
error rather than silently succeeding, because the state guard is
re-evaluated against the persisted state. -/
theorem C7_despachado_twice (svc : PedidosService) (p : Pedido)
    (xc xc2 : Option String) :
    (∀ r, svc.marcarDespachado (some p) xc = .ok r →
      p.tipo = PedidoTipo.VENTA ∧ p.estado = PedidoEstado.APROBADO ∧
      r.pedido.estado = PedidoEstado.DESPACHADO ∧ r.calls = []) ∧
    (p.tipo = PedidoTipo.VENTA → p.estado = PedidoEstado.APROBADO →
      ∃ r, svc.marcarDespachado (some p) xc = .ok r ∧
        svc.marcarDespachado (some r.pedido) xc2 =
          .error (.valueError "Transición no válida")) := by
  constructor
  · intro r h
    simp only [PedidosService.marcarDespachado] at h
    by_cases h1 : p.tipo = PedidoTipo.VENTA
    · rw [if_neg (by simp [h1])] at h
      by_cases h2 : p.estado = PedidoEstado.APROBADO
      · rw [if_neg (by simp [h2])] at h
        obtain rfl : _ = r := Except.ok.inj h
        exact ⟨h1, h2, rfl, rfl⟩
      · rw [if_pos (by simp [h2])] at h
        exact absurd h (by simp)
    · rw [if_pos (by simp [h1])] at h
      exact absurd h (by simp)
  · intro h1 h2
    refine ⟨{ pedido := { p with estado := .DESPACHADO }
              calls := []
              eventos := [{ evento := "pedido_despachado", estado := .DESPACHADO,
                            de := some p.estado }] }, ?_, ?_⟩
    · simp only [PedidosService.marcarDespachado]
      rw [if_neg (by simp [h1]), if_neg (by simp [h2])]
    · simp only [PedidosService.marcarDespachado]
      rw [if_neg (by simp [h1])]
      rw [if_pos (by simp)]

/-- Witness for C7 at a concrete SALE order in APROBADO. -/
theorem C7_despachado_twice_witness :
    ∃ r, PedidosService.init.marcarDespachado (some ventaAprobada) none = .ok r ∧
      PedidosService.init.marcarDespachado (some r.pedido) none =
        .error (.valueError "Transición no válida") :=
  (C7_despachado_twice PedidosService.init ventaAprobada none none).2 rfl rfl

/-- Inversion of a failing country resolution: the only failure is the
uncaught `AttributeError` on a truthy non-dict `ctx`. -/
theorem resolveCountry_error {e : EventJson} {err : PyError}
    (h : resolveCountry e = .error err) :
    err = .attributeError "get" ∧ e.ctx = some JsonVal.nonDict := by
  cases hctx : e.ctx with
  | none =>
      unfold resolveCountry at h
      rw [hctx] at h
      simp at h
  | some v =>
      cases v with
      | nonDict =>
          unfold resolveCountry at h
          rw [hctx] at h
          simp at h
          exact ⟨h.symm, rfl⟩
      | obj c =>
          unfold resolveCountry at h
          rw [hctx] at h
          simp at h

/-- A successful country resolution means `ctx` was not a truthy
non-dict. -/
theorem resolveCountry_ok_ctx {e : EventJson} {c : String}
    (h : resolveCountry e = .ok c) : e.ctx ≠ some JsonVal.nonDict := by
  intro hctx
  unfold resolveCountry at h
  rw [hctx] at h
  simp at h

/-- Per-branch behaviour of the dispatch block: the dispatched operation
matches the outcome's log severity, and an unrecognized event dispatches
nothing. -/
theorem dispatchEvent_spec (e : EventJson) (t country : String)
    (outcome : PubsubOp → DispatchOutcome) :
    (∀ op msg, (dispatchEvent e t country outcome).1 = some op →
      outcome op = .businessError msg →
      ∃ s, (LogLevel.warning, s) ∈ (dispatchEvent e t country outcome).2) ∧
    (∀ op msg, (dispatchEvent e t country outcome).1 = some op →
      outcome op = .unexpectedError msg →
      ∃ s, (LogLevel.error, s) ∈ (dispatchEvent e t country outcome).2) ∧
    (¬(t = "pedido_recibido" ∨ t = "pedido_despachado" ∨ t = "pedido_cancelado") →
      (dispatchEvent e t country outcome).1 = none) := by
  unfold dispatchEvent
  split
  · cases hp : e.pedido_id with
    | none => simp
    | some pid =>
        cases ho : outcome (if t = "pedido_recibido" then .recibido pid country
          else if t = "pedido_despachado" then .despachado pid country
          else .cancelado pid) <;> simp_all
  · simp_all

/-- Counterexample to claim C8 as stated: the handler does surface errors
to the transport.  A body parsing to valid non-object JSON (such as `[1]`)
raises `AttributeError` at `envelope.get("message")`, and a well-shaped
envelope whose `data` decodes to a non-object (such as `"x"`) raises at
`event.get("ctx")` — both uncaught, surfaced as HTTP 500, not an
acknowledged 204. -/
theorem C8_pubsub_counterexample :
    handle_pubsub_push (.parsed .nonDict) outcomeW =
      .error (.attributeError "get") ∧
    handle_pubsub_push
        (.parsed (.obj { message := some (.obj { data := some (.decoded .nonDict) }) }))
        outcomeW =
      .error (.attributeError "get") :=
  ⟨rfl, rfl⟩

/-- Claim C8 (amended): every answer the handler returns is the
acknowledgment 204; a JSON-parse failure, missing `message`, missing or
undecodable `data`, or missing `event` (the object fields well-shaped
along the way) is an acknowledged no-op dispatching nothing; an
unrecognized event value dispatches nothing; a business-validation
failure during dispatch is logged as a warning and acknowledged; any
other dispatch failure is logged as an error and acknowledged.  An
uncaught `AttributeError` (HTTP 500) escapes exactly when a parsed stage
is a truthy non-dict: a valid-JSON non-object body, a truthy non-dict
`message`, `data` decoding to a non-object, or a truthy non-dict `ctx`
together with a truthy `event`. -/
theorem C8_pubsub_amended (body : JsonBody)
    (outcome : PubsubOp → DispatchOutcome) :
    (∀ res, handle_pubsub_push body outcome = .ok res → res.status = 204) ∧
    (preDispatchNoOp body = true →
      ∃ res, handle_pubsub_push body outcome = .ok res ∧ res.dispatched = none) ∧
    (∀ env m e t res, body = .parsed (.obj env) →
      env.message = some (.obj m) → m.data = some (.decoded (.obj e)) →
      truthyStr e.event = some t →
      ¬(t = "pedido_recibido" ∨ t = "pedido_despachado" ∨ t = "pedido_cancelado") →
      handle_pubsub_push body outcome = .ok res → res.dispatched = none) ∧
    (∀ res op msg, handle_pubsub_push body outcome = .ok res →
      res.dispatched = some op → outcome op = .businessError msg →
      ∃ s, (LogLevel.warning, s) ∈ res.logs) ∧
    (∀ res op msg, handle_pubsub_push body outcome = .ok res →
      res.dispatched = some op → outcome op = .unexpectedError msg →
      ∃ s, (LogLevel.error, s) ∈ res.logs) ∧
    (handle_pubsub_push body outcome = .error (.attributeError "get") ↔
      rawShapeError body = true) := by
  cases body with
  | invalid =>
      refine ⟨?_, ?_, ?_, ?_, ?_, ?_⟩
      · intro res h
        obtain rfl := Except.ok.inj h
        rfl
      · intro _
        exact ⟨_, rfl, rfl⟩
      · intro env m e t res hbody
        exact absurd hbody (by simp)
      · intro res op msg h hd
        obtain rfl := Except.ok.inj h
        simp at hd
      · intro res op msg h hd
        obtain rfl := Except.ok.inj h
        simp at hd
      · simp [handle_pubsub_push, rawShapeError]
  | parsed v =>
      cases v with
      | nonDict =>
          refine ⟨?_, ?_, ?_, ?_, ?_, ?_⟩
          · intro res h
            exact absurd h (by simp [handle_pubsub_push])
          · intro hno
            simp [preDispatchNoOp] at hno
          · intro env m e t res hbody
            exact absurd (JsonBody.parsed.inj hbody) (by simp)
          · intro res op msg h
            exact absurd h (by simp [handle_pubsub_push])
          · intro res op msg h
            exact absurd h (by simp [handle_pubsub_push])
          · simp [handle_pubsub_push, rawShapeError]
      | obj env =>
        cases env with
        | mk message =>
          cases message with
          | none =>
              refine ⟨?_, ?_, ?_, ?_, ?_, ?_⟩
              · intro res h
                obtain rfl := Except.ok.inj h
                rfl
              · intro _
                exact ⟨_, rfl, rfl⟩
              · intro env2 m e t res hbody hmsg
                obtain rfl := JsonVal.obj.inj (JsonBody.parsed.inj hbody)
                simp at hmsg
              · intro res op msg h hd
                obtain rfl := Except.ok.inj h
                simp at hd
              · intro res op msg h hd
                obtain rfl := Except.ok.inj h
                simp at hd
              · simp [handle_pubsub_push, rawShapeError]
          | some mv =>
            cases mv with
            | nonDict =>
                refine ⟨?_, ?_, ?_, ?_, ?_, ?_⟩
                · intro res h
                  exact absurd h (by simp [handle_pubsub_push])
                · intro hno
                  simp [preDispatchNoOp] at hno
                · intro env2 m e t res hbody hmsg
                  obtain rfl := JsonVal.obj.inj (JsonBody.parsed.inj hbody)
                  simp at hmsg
                · intro res op msg h
                  exact absurd h (by simp [handle_pubsub_push])
                · intro res op msg h
                  exact absurd h (by simp [handle_pubsub_push])
                · simp [handle_pubsub_push, rawShapeError]
            | obj m =>
              cases m with
              | mk data =>
                cases data with
                | none =>
                    refine ⟨?_, ?_, ?_, ?_, ?_, ?_⟩
                    · intro res h
                      obtain rfl := Except.ok.inj h
                      rfl
                    · intro _
                      exact ⟨_, rfl, rfl⟩
                    · intro env2 m2 e t res hbody hmsg hdata
                      obtain rfl := JsonVal.obj.inj (JsonBody.parsed.inj hbody)
                      obtain rfl := JsonVal.obj.inj (Option.some.inj hmsg)
                      simp at hdata
                    · intro res op msg h hd
                      obtain rfl := Except.ok.inj h
                      simp at hd
                    · intro res op msg h hd
                      obtain rfl := Except.ok.inj h
                      simp at hd
                    · simp [handle_pubsub_push, rawShapeError]
                | some dd =>
                  cases dd with
                  | failed =>
                      refine ⟨?_, ?_, ?_, ?_, ?_, ?_⟩
                      · intro res h
                        obtain rfl := Except.ok.inj h
                        rfl
                      · intro _
                        exact ⟨_, rfl, rfl⟩
                      · intro env2 m2 e t res hbody hmsg hdata
                        obtain rfl := JsonVal.obj.inj (JsonBody.parsed.inj hbody)
                        obtain rfl := JsonVal.obj.inj (Option.some.inj hmsg)
                        simp at hdata
                      · intro res op msg h hd
                        obtain rfl := Except.ok.inj h
                        simp at hd
                      · intro res op msg h hd
                        obtain rfl := Except.ok.inj h
                        simp at hd
                      · simp [handle_pubsub_push, rawShapeError]
                  | decoded ev =>
                    cases ev with
                    | nonDict =>
                        refine ⟨?_, ?_, ?_, ?_, ?_, ?_⟩
                        · intro res h
                          exact absurd h (by simp [handle_pubsub_push])
                        · intro hno
                          simp [preDispatchNoOp] at hno
                        · intro env2 m2 e t res hbody hmsg hdata
                          obtain rfl := JsonVal.obj.inj (JsonBody.parsed.inj hbody)
                          obtain rfl := JsonVal.obj.inj (Option.some.inj hmsg)
                          simp at hdata
                        · intro res op msg h
                          exact absurd h (by simp [handle_pubsub_push])
                        · intro res op msg h
                          exact absurd h (by simp [handle_pubsub_push])
                        · simp [handle_pubsub_push, rawShapeError]
                    | obj e =>
                      cases hev : truthyStr e.event with
                      | none =>
                          refine ⟨?_, ?_, ?_, ?_, ?_, ?_⟩
                          · intro res h
                            simp only [handle_pubsub_push, hev] at h
                            obtain rfl := Except.ok.inj h
                            rfl
                          · intro _
                            exact ⟨{ status := 204, dispatched := none
                                     logs := [(.warning, "Evento sin 'event'")] },
                              by simp [handle_pubsub_push, hev], rfl⟩
                          · intro env2 m2 e2 t res hbody hmsg hdata hev2
                            obtain rfl := JsonVal.obj.inj (JsonBody.parsed.inj hbody)
                            obtain rfl := JsonVal.obj.inj (Option.some.inj hmsg)
                            obtain rfl := JsonVal.obj.inj
                              (DataDecode.decoded.inj (Option.some.inj hdata))
                            rw [hev] at hev2
                            simp at hev2
                          · intro res op msg h hd
                            simp only [handle_pubsub_push, hev] at h
                            obtain rfl := Except.ok.inj h
                            simp at hd
                          · intro res op msg h hd
                            simp only [handle_pubsub_push, hev] at h
                            obtain rfl := Except.ok.inj h
                            simp at hd
                          · simp [handle_pubsub_push, rawShapeError, hev]
                      | some t =>
                        cases hrc : resolveCountry e with
                        | error err =>
                            obtain ⟨rfl, hctx⟩ := resolveCountry_error hrc
                            have hmain : handle_pubsub_push
                                (.parsed (.obj { message := some (.obj
                                  { data := some (.decoded (.obj e)) }) })) outcome =
                                .error (.attributeError "get") := by
                              simp [handle_pubsub_push, hev, hrc]
                            refine ⟨?_, ?_, ?_, ?_, ?_, ?_⟩
                            · intro res h
                              rw [hmain] at h
                              exact absurd h (by simp)
                            · intro hno
                              simp [preDispatchNoOp, hev] at hno
                            · intro env2 m2 e2 t2 res hbody hmsg hdata hev2 hnot hok
                              rw [hmain] at hok
                              exact absurd hok (by simp)
                            · intro res op msg h
                              rw [hmain] at h
                              exact absurd h (by simp)
                            · intro res op msg h
                              rw [hmain] at h
                              exact absurd h (by simp)
                            · rw [hmain]
                              simp [rawShapeError, hev, hctx]
                        | ok country =>
                            have hmain : handle_pubsub_push
                                (.parsed (.obj { message := some (.obj
                                  { data := some (.decoded (.obj e)) }) })) outcome =
                                .ok { status := 204
                                      dispatched := (dispatchEvent e t country outcome).1
                                      logs := (dispatchEvent e t country outcome).2 } := by
                              simp [handle_pubsub_push, hev, hrc]
                            obtain ⟨hbus, hunexp, hunr⟩ := dispatchEvent_spec e t country outcome
                            refine ⟨?_, ?_, ?_, ?_, ?_, ?_⟩
                            · intro res h
                              rw [hmain] at h
                              obtain rfl := Except.ok.inj h
                              rfl
                            · intro hno
                              simp [preDispatchNoOp, hev] at hno
                            · intro env2 m2 e2 t2 res hbody hmsg hdata hev2 hnot hok
                              obtain rfl := JsonVal.obj.inj (JsonBody.parsed.inj hbody)
                              obtain rfl := JsonVal.obj.inj (Option.some.inj hmsg)
                              obtain rfl := JsonVal.obj.inj
                                (DataDecode.decoded.inj (Option.some.inj hdata))
                              rw [hev] at hev2
                              obtain rfl := Option.some.inj hev2
                              rw [hmain] at hok
                              obtain rfl := Except.ok.inj hok
                              exact hunr hnot
                            · intro res op msg h hd ho
                              rw [hmain] at h
                              obtain rfl := Except.ok.inj h
                              exact hbus op msg hd ho
                            · intro res op msg h hd ho
                              rw [hmain] at h
                              obtain rfl := Except.ok.inj h
                              exact hunexp op msg hd ho
                            · rw [hmain]
                              constructor
                              · intro h
                                exact absurd h (by simp)
                              · intro h
                                exfalso
                                simp only [rawShapeError, hev] at h
                                have hctx := resolveCountry_ok_ctx hrc
                                cases hc2 : e.ctx with
                                | none => rw [hc2] at h; simp at h
                                | some v2 =>
                                    cases v2 with
                                    | nonDict => exact hctx hc2
                                    | obj c2 => rw [hc2] at h; simp at h

/-- Witness for the amended C8 at a concrete well-formed `pedido_recibido`
push whose dispatch fails business validation: acknowledged with 204 and a
warning logged. -/
theorem C8_pubsub_amended_witness :
    ∃ res, handle_pubsub_push bodyW outcomeW = .ok res ∧ res.status = 204 ∧
      ∃ s, (LogLevel.warning, s) ∈ res.logs := by
  have h := C8_pubsub_amended bodyW outcomeW
  refine ⟨{ status := 204
            dispatched := (dispatchEvent eventJsonW "pedido_recibido" "mx" outcomeW).1
            logs := (dispatchEvent eventJsonW "pedido_recibido" "mx" outcomeW).2 },
    rfl, rfl, ?_⟩
  exact h.2.2.2.1 _ (.recibido "ped-9" "mx") "Transición no válida" rfl rfl rfl

/-- Claim C9: invoked without a tenant/country tag — as the direct API
route always does — `marcar_recibido` performs zero gateway calls yet
still transitions a PURCHASE order in APROBADO or EN_TRANSITO to RECIBIDO;
the per-line external effects happen only when a truthy country tag is
supplied. -/
theorem C9_route_receives_without_calls (svc : PedidosService) (p : Pedido)
    (gw : Gateway) (h1 : p.tipo = PedidoTipo.COMPRA)
    (h2 : p.estado = PedidoEstado.APROBADO ∨ p.estado = PedidoEstado.EN_TRANSITO) :
    (∃ r, marcarRecibidoRoute svc (some p) gw = .ok r ∧
      r.pedido.estado = PedidoEstado.RECIBIDO ∧ r.calls = []) ∧
    (∀ xc r, svc.marcarRecibido (some p) xc gw = .ok r → r.calls ≠ [] →
      truthyStr xc ≠ none) := by
  constructor
  · refine ⟨{ pedido := { p with estado := .RECIBIDO }
              calls := []
              eventos := [{ evento := "pedido_recibido", estado := .RECIBIDO,
                            de := some p.estado }] }, ?_, rfl, rfl⟩
    unfold marcarRecibidoRoute
    simp only [PedidosService.marcarRecibido]
    rw [if_neg (by simp [h1]), if_neg (by tauto)]
    rfl
  · intro xc r h hne hnone
    simp only [PedidosService.marcarRecibido] at h
    rw [if_neg (by simp [h1]), if_neg (by tauto), hnone] at h
    obtain rfl : _ = r := Except.ok.inj h
    exact hne rfl

/-- Witness for C9 at a concrete PURCHASE order in APROBADO. -/
theorem C9_route_receives_without_calls_witness :
    ∃ r, marcarRecibidoRoute PedidosService.init (some compraAprobada) gwW = .ok r ∧
      r.pedido.estado = PedidoEstado.RECIBIDO ∧ r.calls = [] :=
  (C9_route_receives_without_calls PedidosService.init compraAprobada gwW
    rfl (Or.inl rfl)).1

/-- The creation pipeline always leaves the order APROBADO. -/
theorem crearCore_estado (payload : CrearPayload) (amb : Amb) (gw : Gateway)
    (fc : Int) :
    (crearCore payload amb gw fc).pedido.estado = PedidoEstado.APROBADO := by
  simp only [crearCore]
  split
  · split <;> rfl
  · rfl

/-- Success of `marcar_recibido` always leaves the order RECIBIDO. -/
theorem marcarRecibido_ok_estado {svc : PedidosService} {dbp : Option Pedido}
    {xc : Option String} {gw : Gateway} {r : OpResult}
    (h : svc.marcarRecibido dbp xc gw = .ok r) :
    r.pedido.estado = PedidoEstado.RECIBIDO := by
  cases dbp with
  | none => exact absurd h (by simp [PedidosService.marcarRecibido])
  | some p =>
      simp only [PedidosService.marcarRecibido] at h
      split at h
      · exact absurd h (by simp)
      · split at h
        · exact absurd h (by simp)
        · obtain rfl : _ = r := Except.ok.inj h
          rfl

/-- Success of `marcar_despachado` always leaves the order DESPACHADO. -/
theorem marcarDespachado_ok_estado {svc : PedidosService} {dbp : Option Pedido}
    {xc : Option String} {r : OpResult}
    (h : svc.marcarDespachado dbp xc = .ok r) :
    r.pedido.estado = PedidoEstado.DESPACHADO := by
  cases dbp with
  | none => exact absurd h (by simp [PedidosService.marcarDespachado])
  | some p =>
      simp only [PedidosService.marcarDespachado] at h
      split at h
      · exact absurd h (by simp)
      · split at h
        · exact absurd h (by simp)
        · obtain rfl : _ = r := Except.ok.inj h
          rfl

/-- Success of `cancelar` always leaves the order CANCELADO. -/
theorem cancelar_ok_estado {svc : PedidosService} {dbp : Option Pedido}
    {r : OpResult} (h : svc.cancelar dbp = .ok r) :
    r.pedido.estado = PedidoEstado.CANCELADO := by
  cases dbp with
  | none => exact absurd h (by simp [PedidosService.cancelar])
  | some p =>
      simp only [PedidosService.cancelar] at h
      split at h
      · exact absurd h (by simp)
      · obtain rfl : _ = r := Except.ok.inj h
        rfl

/-- Claim C10: no orchestrator operation ever produces PENDIENTE_APROBACION
or EN_TRANSITO: every order returned by `crear`, `marcar_recibido`,
`marcar_despachado` or `cancelar` is in
{APROBADO, RECIBIDO, DESPACHADO, CANCELADO} (indeed `crear` always returns
APROBADO, and the transitions return their respective targets), so the
EN_TRANSITO source state accepted by `marcar_recibido` is never produced
by this component's own operations. -/
theorem C10_final_states :
    (∀ (svc : PedidosService) (payload : CrearPayload) (amb : Amb)
        (gw : Gateway) (r : OpResult), svc.crear payload amb gw = .ok r →
      r.pedido.estado ∈ [PedidoEstado.APROBADO, PedidoEstado.RECIBIDO,
        PedidoEstado.DESPACHADO, PedidoEstado.CANCELADO] ∧
      r.pedido.estado = PedidoEstado.APROBADO) ∧
    (∀ (svc : PedidosService) (dbp : Option Pedido) (xc : Option String)
        (gw : Gateway) (r : OpResult), svc.marcarRecibido dbp xc gw = .ok r →
      r.pedido.estado ∈ [PedidoEstado.APROBADO, PedidoEstado.RECIBIDO,
        PedidoEstado.DESPACHADO, PedidoEstado.CANCELADO] ∧
      r.pedido.estado = PedidoEstado.RECIBIDO) ∧
    (∀ (svc : PedidosService) (dbp : Option Pedido) (xc : Option String)
        (r : OpResult), svc.marcarDespachado dbp xc = .ok r →
      r.pedido.estado ∈ [PedidoEstado.APROBADO, PedidoEstado.RECIBIDO,
        PedidoEstado.DESPACHADO, PedidoEstado.CANCELADO] ∧
      r.pedido.estado = PedidoEstado.DESPACHADO) ∧
    (∀ (svc : PedidosService) (dbp : Option Pedido) (r : OpResult),
        svc.cancelar dbp = .ok r →
      r.pedido.estado ∈ [PedidoEstado.APROBADO, PedidoEstado.RECIBIDO,
        PedidoEstado.DESPACHADO, PedidoEstado.CANCELADO] ∧
      r.pedido.estado = PedidoEstado.CANCELADO) := by
  refine ⟨?_, ?_, ?_, ?_⟩
  · intro svc payload amb gw r h
    obtain ⟨fc, _, rfl⟩ := crear_ok_inv h
    have := crearCore_estado payload amb gw fc
    exact ⟨by simp [this], this⟩
  · intro svc dbp xc gw r h
    have := marcarRecibido_ok_estado h
    exact ⟨by simp [this], this⟩
  · intro svc dbp xc r h
    have := marcarDespachado_ok_estado h
    exact ⟨by simp [this], this⟩
  · intro svc dbp r h
    have := cancelar_ok_estado h
    exact ⟨by simp [this], this⟩

/-- Witness for C10 at a concrete creation and a concrete cancellation. -/
theorem C10_final_states_witness :
    (PedidosService.init.crear ventaPayloadW amb0 gwW = .ok ventaResW ∧
      ventaResW.pedido.estado ∈ [PedidoEstado.APROBADO, PedidoEstado.RECIBIDO,
        PedidoEstado.DESPACHADO, PedidoEstado.CANCELADO]) ∧
    ∃ r, PedidosService.init.cancelar (some pedidoBorrador) = .ok r ∧
      r.pedido.estado ∈ [PedidoEstado.APROBADO, PedidoEstado.RECIBIDO,
        PedidoEstado.DESPACHADO, PedidoEstado.CANCELADO] := by
  refine ⟨⟨rfl, (C10_final_states.1 PedidosService.init ventaPayloadW amb0 gwW
    ventaResW rfl).1⟩, ?_⟩
  exact ⟨_, rfl, (C10_final_states.2.2.2 PedidosService.init
    (some pedidoBorrador) _ rfl).1⟩

end MsPedidos
